import Mathlib

/-!
Shallow embedding of `src/trade.py` (the "Trade with Laiba" application core):
the Account/Trade data model, the trading engine, the payment-unlock flow,
the persistence round-trip and the market-trend oracle.  Python floats are
modelled as exact rationals (`ℚ`), Python `None` as `Option`, the user
dictionary as an association list, and the external services (market feed,
payment provider, password hashing) as explicit function or data parameters.
-/

namespace TradeWithLaiba

/-- One history snapshot, as appended by `User.update_balance`:
`{"timestamp": str(datetime.now()), "balance": self.balance}`. -/
structure HistEntry where
  timestamp : String
  balance : ℚ
deriving DecidableEq, Repr

/-- The `Trade` class: `amount`, `prediction`, `result`. -/
structure Trade where
  amount : ℚ
  prediction : String
  result : String
deriving DecidableEq, Repr

/-- `Trade.is_win`: `self.prediction == self.result`. -/
def Trade.is_win (t : Trade) : Bool :=
  t.prediction == t.result

/-- The `User` class fields set in `User.__init__` and by the rest of the
program: username, account type, optional bcrypt hash, balance, trade log,
balance history, premium flag. -/
structure User where
  username : String
  account_type : String
  hashed_password : Option String
  balance : ℚ
  trades : List Trade
  history : List HistEntry
  premium_unlocked : Bool
deriving DecidableEq, Repr

/-- `User.__init__(username, account_type="demo", hashed_password=None)`:
balance starts at 10000 for demo accounts and 0 otherwise; empty trade log,
empty history, premium flag false. -/
def User.init (username : String) (account_type : String)
    (hashed_password : Option String) : User :=
  { username := username
    account_type := account_type
    hashed_password := hashed_password
    balance := if account_type == "demo" then 10000 else 0
    trades := []
    history := []
    premium_unlocked := false }

/-- `User.update_balance(amount)`: `self.balance += amount` then append a
history snapshot carrying the resulting balance (the timestamp string is an
explicit parameter standing for `str(datetime.now())`). -/
def User.update_balance (u : User) (now : String) (amount : ℚ) : User :=
  { u with
    balance := u.balance + amount
    history := u.history ++ [⟨now, u.balance + amount⟩] }

/-- `User.get_level()`: trade-count tiers with the exact strings returned by
the source. -/
def User.get_level (u : User) : String :=
  let count := u.trades.length
  if count ≥ 31 then "🌟 Pro"
  else if count ≥ 11 then "🔥 Intermediate"
  else "🔰 Beginner"

/-- `TradingSystem.place_trade(amount, prediction)`, with the market result
(`self.get_market_result()`) and the timestamp passed explicitly.  Appends
the `Trade`, then pays `amount * 0.9` on a win or `-amount` on a loss via
`update_balance`, returning `(won, result, delta)` together with the mutated
user. -/
def place_trade (u : User) (now : String) (amount : ℚ)
    (prediction result : String) : (Bool × String × ℚ) × User :=
  let trade : Trade := ⟨amount, prediction, result⟩
  let u1 : User := { u with trades := u.trades ++ [trade] }
  if trade.is_win then
    let win_amount := amount * (9 / 10)
    ((true, result, win_amount), u1.update_balance now win_amount)
  else
    ((false, result, -amount), u1.update_balance now (-amount))

/-- The in-memory `USERS` dictionary, as an association list from username
to `User` (first binding wins, matching dict-lookup semantics in our use). -/
abbrev Population := List (String × User)

/-- `USERS.get(username)`: first binding for the username, if any. -/
def Population.get : Population → String → Option User
  | [], _ => none
  | p :: ps, name => if p.1 == name then some p.2 else Population.get ps name

/-- In-place mutation of the user object bound to `name` (Python mutates the
shared `User` object; here we rebuild the list with the updated value). -/
def Population.set : Population → String → User → Population
  | [], _, _ => []
  | p :: ps, name, u =>
    (if p.1 == name then (p.1, u) else p) :: Population.set ps name u

/-- One entry of `stripe.payment_intents.list(...).data`: its `status` and
its `metadata.get('username')`. -/
structure Payment where
  status : String
  metadata_username : Option String
deriving DecidableEq, Repr

/-- `check_payment_and_unlock(username)` over an explicit payment list: scan
for a succeeded payment whose metadata username matches; if the user exists
and is not yet premium, set the flag, switch the account type to "real",
reset the balance to 100 and return true; otherwise keep scanning and
finally return false.  The `save_users` call persists the same state, so the
returned population is the committed one. -/
def check_payment_and_unlock (payments : List Payment) (username : String)
    (pop : Population) : Bool × Population :=
  match payments with
  | [] => (false, pop)
  | p :: ps =>
    if p.status == "succeeded" && p.metadata_username == some username then
      match pop.get username with
      | some user =>
        if !user.premium_unlocked then
          let user1 : User :=
            { user with
              premium_unlocked := true
              account_type := "real"
              balance := 100 }
          (true, pop.set username user1)
        else
          check_payment_and_unlock ps username pop
      | none => check_payment_and_unlock ps username pop
    else
      check_payment_and_unlock ps username pop

/-- The per-trade record written by `save_users` (`vars(t)` of a `Trade`). -/
structure TradeRecord where
  amount : ℚ
  prediction : String
  result : String
deriving DecidableEq, Repr

/-- The per-user record written by `save_users`. -/
structure UserRecord where
  account_type : String
  balance : ℚ
  trades : List TradeRecord
  history : List HistEntry
  hashed_password : Option String
  premium_unlocked : Bool
deriving DecidableEq, Repr

/-- `vars(t)` for a trade, as serialized by `save_users`. -/
def tradeToRecord (t : Trade) : TradeRecord :=
  ⟨t.amount, t.prediction, t.result⟩

/-- `Trade(**t)` as performed by `load_users` on a stored trade record. -/
def tradeOfRecord (r : TradeRecord) : Trade :=
  ⟨r.amount, r.prediction, r.result⟩

/-- `save_users`' per-user dictionary entry. -/
def save_user (u : User) : UserRecord :=
  { account_type := u.account_type
    balance := u.balance
    trades := u.trades.map tradeToRecord
    history := u.history
    hashed_password := u.hashed_password
    premium_unlocked := u.premium_unlocked }

/-- `load_users`' reconstruction of one user: build
`User(username, info["account_type"], info.get("hashed_password"))` and then
overwrite balance, trades, history, hashed password and premium flag from
the stored record. -/
def load_user (username : String) (info : UserRecord) : User :=
  let u := User.init username info.account_type info.hashed_password
  { u with
    balance := info.balance
    trades := info.trades.map tradeOfRecord
    history := info.history
    hashed_password := info.hashed_password
    premium_unlocked := info.premium_unlocked }

/-- `save_users(users)`: the serialized document, keyed by username. -/
def save_users (pop : Population) : List (String × UserRecord) :=
  pop.map (fun p => (p.1, save_user p.2))

/-- `load_users()` applied to a stored document. -/
def load_users (data : List (String × UserRecord)) : Population :=
  data.map (fun p => (p.1, load_user p.1 p.2))

/-- What `get_real_market_trend` extracts from the provider: either the two
most recent closes (`latest`, `prev`), or any failure of the request, the
JSON parse or the key lookups (all caught by the bare `except`). -/
inductive FetchOutcome where
  | ok (latest_close prev_close : ℚ)
  | failure
deriving DecidableEq, Repr

/-- `get_real_market_trend()`: on a successful fetch compare the two most
recent closes; on any failure fall back to `random.choice(["up", "down"])`,
modelled by the Boolean coin `pick_up`. -/
def get_real_market_trend (resp : FetchOutcome) (pick_up : Bool) : String :=
  match resp with
  | .ok latest prev => if latest > prev then "up" else "down"
  | .failure => if pick_up then "up" else "down"

/-- The request `create_stripe_checkout_session` sends to the payment
provider: fixed 500-cent USD one-off payment, customer email, and the
session user's name in the metadata. -/
structure CheckoutRequest where
  unit_amount : Nat
  currency : String
  mode : String
  customer_email : String
  metadata_username : String
deriving DecidableEq, Repr

/-- `create_stripe_checkout_session(user_email)`: ask the provider (the
`provider` parameter stands for `stripe.checkout.Session.create`) for a
session and return its URL.  The population is threaded through unchanged:
the function performs no local mutation. -/
def create_stripe_checkout_session (user_email session_username : String)
    (provider : CheckoutRequest → String) (pop : Population) :
    String × Population :=
  (provider ⟨500, "usd", "payment", user_email, session_username⟩, pop)

/-- The credential check of the login handler:
`if user.hashed_password and bcrypt.checkpw(password.encode(), user.hashed_password.encode())`.
Python truthiness makes both `None` and the empty string fail before
`checkpw` (a parameter standing for `bcrypt.checkpw`) is consulted. -/
def login_check (user : User) (password : String)
    (checkpw : String → String → Bool) : Bool :=
  match user.hashed_password with
  | none => false
  | some h => if h == "" then false else checkpw password h

/-- The in-memory operations the UI can trigger on the population. `hash`
stands for `bcrypt.hashpw ∘ bcrypt.gensalt`, `checkpw` for
`bcrypt.checkpw`. -/
inductive Op where
  | login (username password account_type : String)
      (hash : String → String) (checkpw : String → String → Bool)
  | placeTrade (username now : String) (amount : ℚ) (prediction result : String)
  | createCheckout (user_email session_username : String)
      (provider : CheckoutRequest → String)
  | verifyPayment (username : String) (payments : List Payment)

/-- One UI action on the in-memory population, following the source:
the login button creates a fresh `User` only for an unseen username with a
non-empty password and never mutates an existing account's fields; placing a
trade runs the trading engine on the logged-in user; checkout creation does
not touch the population; payment verification runs
`check_payment_and_unlock`. -/
def step (pop : Population) : Op → Population
  | .login username password account_type hash _ =>
    (match pop.get username with
     | none =>
       if password == "" then pop
       else (username, User.init username account_type (some (hash password))) :: pop
     | some _ => pop)
  | .placeTrade username now amount prediction result =>
    (match pop.get username with
     | some u => pop.set username (place_trade u now amount prediction result).2
     | none => pop)
  | .createCheckout user_email session_username provider =>
    (create_stripe_checkout_session user_email session_username provider pop).2
  | .verifyPayment username payments =>
    (check_payment_and_unlock payments username pop).2

/-- A whole session: fold the UI actions over the starting population. -/
def run : Population → List Op → Population
  | pop, [] => pop
  | pop, op :: ops => run (step pop op) ops

/-- The input of one trade: timestamp, wagered amount, prediction and the
oracle's realized outcome. -/
structure TradeInput where
  now : String
  amount : ℚ
  prediction : String
  result : String

/-- A sequence of trades on one account with no intervening unlock. -/
def run_trades : User → List TradeInput → User
  | u, [] => u
  | u, x :: xs => run_trades (place_trade u x.now x.amount x.prediction x.result).2 xs

/-- The `Trade` record a trade input gives rise to. -/
def TradeInput.toTrade (x : TradeInput) : Trade :=
  ⟨x.amount, x.prediction, x.result⟩

/-- The signed delta a recorded trade contributed to the balance. -/
def trade_delta (t : Trade) : ℚ :=
  if t.is_win then t.amount * (9 / 10) else -t.amount

/-- The balance-history invariant of the spec: the last history entry (when
one exists) carries the current balance. -/
def histOk (u : User) : Bool :=
  match u.history.getLast? with
  | some e => e.balance == u.balance
  | none => true

/-- Rank of a level label, for stating monotonicity of `get_level`. -/
def levelRank (s : String) : Nat :=
  if s == "🌟 Pro" then 2
  else if s == "🔥 Intermediate" then 1
  else 0

/-- A concrete account that has placed one losing $100 trade: balance 9900,
one history snapshot at 9900, premium still locked. -/
def exampleAlice : User :=
  { username := "alice"
    account_type := "demo"
    hashed_password := some "hash"
    balance := 9900
    trades := [⟨100, "up", "down"⟩]
    history := [⟨"t0", 9900⟩]
    premium_unlocked := false }

/-- The committed state after a successful payment verification for
`exampleAlice`. -/
def exampleUnlockRun : Bool × Population :=
  check_payment_and_unlock [⟨"succeeded", some "alice"⟩] "alice"
    [("alice", exampleAlice)]

/-- `exampleAlice` after the payment unlock committed: premium, real tier,
balance reset to 100 — but with the old history untouched. -/
def exampleAliceUnlocked : User :=
  { exampleAlice with
    premium_unlocked := true
    account_type := "real"
    balance := 100 }

/-- An account with 31 recorded trades. -/
def examplePro : User :=
  { exampleAlice with trades := List.replicate 31 ⟨1, "up", "up"⟩ }

/-! ## Helper lemmas -/

theorem place_trade_snd (u : User) (now : String) (amount : ℚ) (p r : String) :
    (place_trade u now amount p r).2 =
      { u with
        trades := u.trades ++ [⟨amount, p, r⟩]
        balance := u.balance + trade_delta ⟨amount, p, r⟩
        history := u.history ++ [⟨now, u.balance + trade_delta ⟨amount, p, r⟩⟩] } := by
  unfold place_trade trade_delta User.update_balance
  split <;> simp_all

theorem get_set (pop : Population) (name : String) (v : User) (name2 : String) :
    Population.get (Population.set pop name v) name2 =
      if name2 = name then Option.map (fun _ => v) (Population.get pop name2)
      else Population.get pop name2 := by
  induction pop with
  | nil => simp [Population.set, Population.get]
  | cons p ps ih =>
    by_cases h2 : name2 = name
    · subst h2
      by_cases hp2 : p.1 = name2 <;>
        simp [Population.set, Population.get, hp2, ih]
    · by_cases hp2 : p.1 = name2 <;> by_cases hpn : p.1 = name <;>
        simp_all [Population.set, Population.get, hp2, hpn, ih, h2]

theorem place_trade_premium (u : User) (now : String) (amount : ℚ) (p r : String) :
    ((place_trade u now amount p r).2).premium_unlocked = u.premium_unlocked := by
  rw [place_trade_snd]

theorem trade_roundtrip (t : Trade) : tradeOfRecord (tradeToRecord t) = t := by
  cases t; rfl

theorem trades_roundtrip (ts : List Trade) :
    ts.map (tradeOfRecord ∘ tradeToRecord) = ts := by
  induction ts with
  | nil => rfl
  | cons t ts ih => simp [trade_roundtrip, ih]

theorem load_save_user (u : User) : load_user u.username (save_user u) = u := by
  cases u
  simp [load_user, save_user, User.init, trades_roundtrip]

theorem check_payment_noop (ps : List Payment) (name : String) (pop : Population)
    (u : User) (hget : pop.get name = some u) (hprem : u.premium_unlocked = true) :
    check_payment_and_unlock ps name pop = (false, pop) := by
  induction ps with
  | nil => rfl
  | cons p ps2 ih =>
    by_cases hc : (p.status == "succeeded" && p.metadata_username == some name) = true
    · simp [check_payment_and_unlock, hc, hget, hprem, ih]
    · simp [check_payment_and_unlock, hc, ih]

theorem check_payment_premium_mono (ps : List Payment) (name : String)
    (pop : Population) (name2 : String) (u : User)
    (hget : pop.get name2 = some u) (hprem : u.premium_unlocked = true) :
    ∃ u2, ((check_payment_and_unlock ps name pop).2).get name2 = some u2 ∧
      u2.premium_unlocked = true := by
  induction ps with
  | nil => exact ⟨u, hget, hprem⟩
  | cons p ps2 ih =>
    by_cases hc : (p.status == "succeeded" && p.metadata_username == some name) = true
    · cases hgu : pop.get name with
      | none => simpa [check_payment_and_unlock, hc, hgu] using ih
      | some user =>
        by_cases hpu : user.premium_unlocked = true
        · simpa [check_payment_and_unlock, hc, hgu, hpu] using ih
        · simp only [check_payment_and_unlock, hc, hgu, if_true, hpu,
            Bool.not_eq_true] at *
          simp only [Bool.not_false, if_true, get_set]
          by_cases h2 : name2 = name
          · subst h2
            rw [if_pos rfl, hget]
            exact ⟨_, rfl, rfl⟩
          · rw [if_neg h2]
            exact ⟨u, hget, hprem⟩
    · simpa [check_payment_and_unlock, hc] using ih

theorem check_payment_success_state (ps : List Payment) (name : String)
    (pop : Population) (user : User) (hgu : pop.get name = some user)
    (h : (check_payment_and_unlock ps name pop).1 = true) :
    (check_payment_and_unlock ps name pop).2 =
      pop.set name { user with
                     premium_unlocked := true
                     account_type := "real"
                     balance := (100 : ℚ) } := by
  induction ps with
  | nil => simp [check_payment_and_unlock] at h
  | cons p ps2 ih =>
    by_cases hc : (p.status == "succeeded" && p.metadata_username == some name) = true
    · by_cases hpu : user.premium_unlocked = true
      · rw [show check_payment_and_unlock (p :: ps2) name pop =
          check_payment_and_unlock ps2 name pop by
            simp [check_payment_and_unlock, hc, hgu, hpu]] at h ⊢
        exact ih h
      · simp [check_payment_and_unlock, hc, hgu, hpu]
    · rw [show check_payment_and_unlock (p :: ps2) name pop =
        check_payment_and_unlock ps2 name pop by
          simp [check_payment_and_unlock, hc]] at h ⊢
      exact ih h

theorem step_premium_mono (pop : Population) (op : Op) (name2 : String) (u : User)
    (hget : pop.get name2 = some u) (hprem : u.premium_unlocked = true) :
    ∃ u2, (step pop op).get name2 = some u2 ∧ u2.premium_unlocked = true := by
  cases op with
  | login username password account_type hash checkpw =>
    cases hgu : pop.get username with
    | some v => exact ⟨u, by simp [step, hgu, hget], hprem⟩
    | none =>
      by_cases hpw : password = ""
      · exact ⟨u, by simp [step, hgu, hpw, hget], hprem⟩
      · refine ⟨u, ?_, hprem⟩
        by_cases hun : username = name2
        · subst hun
          rw [hgu] at hget
          cases hget
        · simp [step, hgu, hpw, Population.get, hun, hget]
  | placeTrade username now amount prediction result =>
    cases hgu : pop.get username with
    | none => exact ⟨u, by simp [step, hgu, hget], hprem⟩
    | some v =>
      by_cases h2 : name2 = username
      · subst h2
        have huv : u = v := by
          rw [hget] at hgu
          cases hgu
          rfl
        refine ⟨(place_trade v now amount prediction result).2, ?_, ?_⟩
        · simp [step, hgu, get_set, hget]
        · rw [place_trade_premium, ← huv]
          exact hprem
      · refine ⟨u, ?_, hprem⟩
        simp [step, hgu, get_set, h2, hget]
  | createCheckout user_email session_username provider =>
    exact ⟨u, by simp [step, create_stripe_checkout_session, hget], hprem⟩
  | verifyPayment username payments =>
    simpa [step] using
      check_payment_premium_mono payments username pop name2 u hget hprem

theorem run_premium_mono (ops : List Op) (pop : Population) (name2 : String)
    (u : User) (hget : pop.get name2 = some u)
    (hprem : u.premium_unlocked = true) :
    ∃ u2, (run pop ops).get name2 = some u2 ∧ u2.premium_unlocked = true := by
  induction ops generalizing pop u with
  | nil => exact ⟨u, hget, hprem⟩
  | cons op ops ih =>
    obtain ⟨u2, h1, h2⟩ := step_premium_mono pop op name2 u hget hprem
    exact ih (step pop op) u2 h1 h2

/-! ## Claim theorems -/

/-- Claim C1, counterexample: after one losing trade (balance 9900, last
history snapshot 9900) a successful payment unlock commits a state whose
balance is 100 while the last history entry still records 9900 — the
balance-history invariant fails after the payment-unlock mutation. -/
theorem C1_counterexample :
    exampleUnlockRun.1 = true ∧
    (exampleUnlockRun.2.get "alice").map histOk = some false ∧
    (exampleUnlockRun.2.get "alice").map User.balance = some 100 ∧
    (exampleUnlockRun.2.get "alice").map
      (fun u => (u.history.getLast?).map HistEntry.balance) =
      some (some 9900) := by
  refine ⟨rfl, ?_, ?_, rfl⟩ <;> decide

/-- Claim C1, amended: the balance-history invariant holds after every
mutation that goes through `update_balance` — in particular after every
placed trade — while the payment-unlock path writes the balance directly
without appending a history snapshot, so the invariant is not guaranteed
after an unlock. -/
theorem C1_amended_hist_invariant (u : User) (now : String) (amount : ℚ)
    (p r : String) :
    histOk (u.update_balance now amount) = true ∧
    histOk ((place_trade u now amount p r).2) = true := by
  constructor
  · simp [histOk, User.update_balance, List.getLast?_concat]
  · rw [place_trade_snd]
    simp [histOk, List.getLast?_concat]

/-- Claim C2: a placed trade reports a win exactly when the prediction
equals the realized outcome, returns that outcome, returns a delta of
`amount * 0.9` on a win and `-amount` on a loss, and applies exactly that
delta to the balance. -/
theorem C2_place_trade_delta (u : User) (now : String) (amount : ℚ)
    (prediction result : String) :
    ((place_trade u now amount prediction result).1.1 =
      (prediction == result)) ∧
    ((place_trade u now amount prediction result).1.2.1 = result) ∧
    ((place_trade u now amount prediction result).1.2.2 =
      if prediction = result then amount * (9 / 10) else -amount) ∧
    (((place_trade u now amount prediction result).2).balance =
      u.balance + (place_trade u now amount prediction result).1.2.2) := by
  refine ⟨?_, ?_, ?_, ?_⟩ <;>
    simp only [place_trade, Trade.is_win, User.update_balance] <;>
    split <;> simp_all

/-- Claim C3: `get_level` is a pure function of trade-log length mapping
0–10 trades to the Beginner label, 11–30 to the Intermediate label and 31 or
more to the Pro label, and is monotonic non-decreasing in trade-log
length. -/
theorem C3_get_level_tiers (u : User) :
    (u.get_level = "🔰 Beginner" ↔ u.trades.length ≤ 10) ∧
    (u.get_level = "🔥 Intermediate" ↔
      11 ≤ u.trades.length ∧ u.trades.length ≤ 30) ∧
    (u.get_level = "🌟 Pro" ↔ 31 ≤ u.trades.length) ∧
    (∀ v : User, u.trades.length = v.trades.length →
      u.get_level = v.get_level) ∧
    (∀ v : User, u.trades.length ≤ v.trades.length →
      levelRank u.get_level ≤ levelRank v.get_level) := by
  have hPB : ("🌟 Pro" : String) ≠ "🔰 Beginner" := by decide
  have hPI : ("🌟 Pro" : String) ≠ "🔥 Intermediate" := by decide
  have hIB : ("🔥 Intermediate" : String) ≠ "🔰 Beginner" := by decide
  refine ⟨?_, ?_, ?_, ?_, ?_⟩
  · simp only [User.get_level]
    split_ifs with h1 h2
    · exact iff_of_false hPB (by omega)
    · exact iff_of_false hIB (by omega)
    · exact iff_of_true rfl (by omega)
  · simp only [User.get_level]
    split_ifs with h1 h2
    · exact iff_of_false hPI (by omega)
    · exact iff_of_true rfl (by omega)
    · exact iff_of_false (Ne.symm hIB) (by omega)
  · simp only [User.get_level]
    split_ifs with h1 h2
    · exact iff_of_true rfl (by omega)
    · exact iff_of_false (Ne.symm hPI) (by omega)
    · exact iff_of_false (Ne.symm hPB) (by omega)
  · intro v h
    simp only [User.get_level]
    rw [h]
  · intro v hle
    simp only [User.get_level]
    split_ifs <;> first | decide | (exfalso; omega)

/-- Claim C3 witness: a Beginner account with one trade against a Pro
account with 31 trades. -/
theorem C3_witness :
    exampleAlice.trades.length ≤ examplePro.trades.length ∧
    levelRank exampleAlice.get_level ≤ levelRank examplePro.get_level :=
  ⟨by decide, (C3_get_level_tiers exampleAlice).2.2.2.2 examplePro (by decide)⟩

/-- Claim C4: placing a sequence of trades (with no intervening unlock)
appends exactly one `Trade` record per trade, and the final balance equals
the initial balance plus the sum of the recorded trade deltas. -/
theorem C4_balance_is_initial_plus_deltas (u : User) (xs : List TradeInput) :
    (run_trades u xs).trades = u.trades ++ xs.map TradeInput.toTrade ∧
    (run_trades u xs).trades.length = u.trades.length + xs.length ∧
    (run_trades u xs).balance =
      u.balance + (xs.map (fun x => trade_delta x.toTrade)).sum := by
  induction xs generalizing u with
  | nil => simp [run_trades]
  | cons x xs ih =>
    obtain ⟨h1, _, h3⟩ :=
      ih (place_trade u x.now x.amount x.prediction x.result).2
    have ht : (run_trades u (x :: xs)).trades =
        u.trades ++ (x :: xs).map TradeInput.toTrade := by
      show (run_trades (place_trade u x.now x.amount x.prediction x.result).2
        xs).trades = _
      rw [h1, place_trade_snd]
      simp [TradeInput.toTrade]
    refine ⟨ht, ?_, ?_⟩
    · rw [ht]
      simp
    · show (run_trades (place_trade u x.now x.amount x.prediction x.result).2
        xs).balance = _
      rw [h3, place_trade_snd]
      show u.balance + trade_delta ⟨x.amount, x.prediction, x.result⟩ + _ = _
      simp [TradeInput.toTrade]
      ring

/-- Claim C5: serializing a population and reloading it reconstructs every
account field (account type, balance, trades, history, hashed password,
premium flag) unchanged, provided each stored username field matches its
dictionary key — which `save_users` guarantees by keying on the username. -/
theorem C5_save_load_roundtrip (pop : Population)
    (h : ∀ p ∈ pop, (p.2).username = p.1) :
    load_users (save_users pop) = pop := by
  induction pop with
  | nil => rfl
  | cons p ps ih =>
    obtain ⟨k, v⟩ := p
    have hp : v.username = k := h (k, v) (List.mem_cons_self _ _)
    have htail : load_users (save_users ps) = ps :=
      ih (fun q hq => h q (List.mem_cons_of_mem _ hq))
    have hl : load_user k (save_user v) = v := hp ▸ load_save_user v
    show (k, load_user k (save_user v)) :: load_users (save_users ps) =
      (k, v) :: ps
    rw [hl, htail]

/-- Claim C5 witness: a concrete one-account population round-trips. -/
theorem C5_witness :
    load_users (save_users [("alice", exampleAlice)]) =
      [("alice", exampleAlice)] :=
  C5_save_load_roundtrip [("alice", exampleAlice)] (by decide)

/-- Claim C6: one successful matching payment commits exactly the unlocked
state (premium true, tier real, balance 100), and a later call on any state
in which the account is already premium returns false and leaves the whole
population — including any balance changes made in between — unchanged. -/
theorem C6_verify_unlock_idempotent :
    (∀ (ps : List Payment) (name : String) (pop : Population) (user : User),
      pop.get name = some user →
      (check_payment_and_unlock ps name pop).1 = true →
      ((check_payment_and_unlock ps name pop).2).get name =
        some { user with
               premium_unlocked := true
               account_type := "real"
               balance := (100 : ℚ) }) ∧
    (∀ (ps : List Payment) (name : String) (pop : Population) (u : User),
      pop.get name = some u → u.premium_unlocked = true →
      check_payment_and_unlock ps name pop = (false, pop)) := by
  constructor
  · intro ps name pop user hgu h1
    rw [check_payment_success_state ps name pop user hgu h1, get_set,
      if_pos rfl, hgu]
    rfl
  · intro ps name pop u hg hp
    exact check_payment_noop ps name pop u hg hp

/-- Claim C6 witness: the concrete unlock of `exampleAlice` commits the
unlocked state, and a second verification on the already-unlocked account
(here with a balance mutated in between) is a no-op returning false. -/
theorem C6_witness :
    exampleUnlockRun.2.get "alice" = some exampleAliceUnlocked ∧
    check_payment_and_unlock [⟨"succeeded", some "alice"⟩] "alice"
        [("alice", { exampleAliceUnlocked with balance := 250 })] =
      (false, [("alice", { exampleAliceUnlocked with balance := 250 })]) :=
  ⟨C6_verify_unlock_idempotent.1 [⟨"succeeded", some "alice"⟩] "alice"
      [("alice", exampleAlice)] exampleAlice (by decide) (by decide),
   C6_verify_unlock_idempotent.2 [⟨"succeeded", some "alice"⟩] "alice"
      [("alice", { exampleAliceUnlocked with balance := 250 })]
      { exampleAliceUnlocked with balance := 250 } (by decide) (by decide)⟩

/-- Claim C7: `get_real_market_trend` returns "up" or "down" for every
provider behavior (success or any caught failure), and on failure returns
exactly the randomly chosen direction. -/
theorem C7_trend_total (resp : FetchOutcome) (pick_up : Bool) :
    (get_real_market_trend resp pick_up = "up" ∨
      get_real_market_trend resp pick_up = "down") ∧
    get_real_market_trend FetchOutcome.failure pick_up =
      (if pick_up then "up" else "down") := by
  constructor
  · cases resp with
    | ok latest prev =>
      by_cases h : latest > prev <;> simp [get_real_market_trend, h]
    | failure => cases pick_up <;> simp [get_real_market_trend]
  · rfl

/-- Claim C8: creating a checkout session returns the provider's URL for a
fixed 500-cent USD payment request tagged with the username, and leaves the
population completely unchanged. -/
theorem C8_checkout_frame (user_email session_username : String)
    (provider : CheckoutRequest → String) (pop : Population) :
    (create_stripe_checkout_session user_email session_username provider
      pop).2 = pop ∧
    (create_stripe_checkout_session user_email session_username provider
      pop).1 =
      provider ⟨500, "usd", "payment", user_email, session_username⟩ :=
  ⟨rfl, rfl⟩

/-- Claim C9: the premium flag starts false on every freshly constructed
account, and across every sequence of in-memory operations (login/account
creation, trades, checkout creation, payment verification) an account whose
flag is true keeps it true. -/
theorem C9_premium_monotonic :
    (∀ (name account_type : String) (hpw : Option String),
      (User.init name account_type hpw).premium_unlocked = false) ∧
    (∀ (ops : List Op) (pop : Population) (name : String) (u : User),
      Population.get pop name = some u → u.premium_unlocked = true →
      ∃ u2, (run pop ops).get name = some u2 ∧
        u2.premium_unlocked = true) := by
  constructor
  · intro name account_type hpw
    rfl
  · intro ops pop name u hget hprem
    exact run_premium_mono ops pop name u hget hprem

/-- Claim C9 witness: an unlocked account stays premium across a concrete
session of a trade, a checkout creation and a repeated verification. -/
theorem C9_witness :
    Population.get [("alice", exampleAliceUnlocked)] "alice" =
      some exampleAliceUnlocked ∧
    exampleAliceUnlocked.premium_unlocked = true ∧
    ∃ u2, (run [("alice", exampleAliceUnlocked)]
        [Op.placeTrade "alice" "t1" 10 "up" "down",
         Op.createCheckout "a@b.c" "alice" (fun _ => "https://pay"),
         Op.verifyPayment "alice" [⟨"succeeded", some "alice"⟩]]).get
        "alice" = some u2 ∧ u2.premium_unlocked = true :=
  ⟨by decide, by decide,
   C9_premium_monotonic.2
     [Op.placeTrade "alice" "t1" 10 "up" "down",
      Op.createCheckout "a@b.c" "alice" (fun _ => "https://pay"),
      Op.verifyPayment "alice" [⟨"succeeded", some "alice"⟩]]
     [("alice", exampleAliceUnlocked)] "alice" exampleAliceUnlocked
     (by decide) (by decide)⟩

/-- Claim C10: an account whose stored credential is null can never
authenticate — the login check rejects every password, whatever the
password-hash comparison would say, because Python truthiness short-circuits
on the missing hash. -/
theorem C10_null_credential_rejected (u : User)
    (h : u.hashed_password = none) (password : String)
    (checkpw : String → String → Bool) :
    login_check u password checkpw = false := by
  simp [login_check, h]

/-- Claim C10 witness: a legacy account with no stored hash rejects a
password even against a comparison that always accepts. -/
theorem C10_witness :
    ({ exampleAlice with hashed_password := none } : User).hashed_password =
      none ∧
    login_check { exampleAlice with hashed_password := none } "pw"
      (fun _ _ => true) = false :=
  ⟨rfl, C10_null_credential_rejected
    { exampleAlice with hashed_password := none } rfl "pw"
    (fun _ _ => true)⟩

end TradeWithLaiba
